import Mathlib

/-!
# ros-qml-plugin: the scene-to-ROS bridge of `src/ros.cpp`

A shallow embedding of three bridge classes of `src/ros.cpp`
(`RosPositionController`, `TFBroadcaster`, `FootprintsPublisher`) together with
the properties of their unit conversion, life cycle and marker geometry.

Conventions of the embedding.

* C++ `double` arithmetic is taken over an arbitrary field `K` (exact
  arithmetic; instantiate `K := ℚ` to evaluate, `K := ℝ` to talk about `π`).
* A pointer that may be null is an `Option`; a member call through a null
  pointer and `std::vector::front()` on an empty vector are undefined behaviour
  in C++ and are reported as a `Fault`.
* `_target->mapToScene(QPoint(0,0))` is a query of the Qt scene graph; the item
  carries its answer in the field `scenePos`.
* Wall-clock stamps (`ros::Time::now()`) and the 100 ms sleep are not modelled.
* The background thread is represented by the counter `threadsStarted` (one
  increment per `std::thread` construction) and by `tfPublisher`, which runs the
  `while` loop for a bounded number of passes.
-/

namespace RosQml

/-! ## Data model -/

/-- Undefined behaviour reached by the C++ code. -/
inductive Fault where
  /-- A member function was called through a null pointer. -/
  | nullDeref
  /-- The function `front()` was called on an empty `std::vector`. -/
  | emptyFront
  deriving DecidableEq, Repr

/-- Qt's `QPointF`. -/
structure QPointF (K : Type) where
  x : K
  y : K

/-- The object behind an item's `boundingbox` property; `vertices` is its
`vertices` property read as a list of `QPointF`. -/
structure BoundingBox (K : Type) where
  vertices : List (QPointF K)

/-- What the bridge reads from a `QQuickItem`: `x()`, `y()`, the scene position of
its origin (`mapToScene(QPoint(0,0))`), `rotation()` in degrees, and the dynamic
properties `name` and `boundingbox` (a null `QObject*` is `none`). -/
structure QQuickItem (K : Type) where
  x : K
  y : K
  scenePos : QPointF K
  rotation : K
  name : String
  boundingbox : Option (BoundingBox K)

/-- The function `QQuickItem::mapToScene` applied to `QPoint(0,0)`. -/
def QQuickItem.mapToSceneOrigin {K : Type} (item : QQuickItem K) : QPointF K :=
  item.scenePos

/-! ## RosPositionController -/

/-- The members of `RosPositionController` that `updatePos` touches: the origin
item, the scale, the item's own position (`setX`/`setY`) and the number of
`onPositionChanged` emissions. -/
structure RosPositionController (K : Type) where
  _origin : Option (QQuickItem K)
  _pixel2meter : K
  x : K
  y : K
  positionChangedCount : Nat

/-- The constructor `RosPositionController::RosPositionController`
(the item starts at Qt's default position `(0, 0)`). -/
def RosPositionController.new {K : Type} [Field K] : RosPositionController K :=
  { _origin := none, _pixel2meter := 1, x := 0, y := 0, positionChangedCount := 0 }

/-- The slot `RosPositionController::updatePos(double x, double y)`. -/
def RosPositionController.updatePos {K : Type} [Field K]
    (c : RosPositionController K) (x y : K) : RosPositionController K :=
  let p : K × K :=
    match c._origin with
    | some origin => (x / c._pixel2meter + origin.x, -y / c._pixel2meter + origin.y)
    | none => (x / c._pixel2meter, -y / c._pixel2meter)
  { c with x := p.1, y := p.2, positionChangedCount := c.positionChangedCount + 1 }

/-! ## TFBroadcaster -/

/-- The members of `TFBroadcaster`, plus `threadsStarted`, the number of times
`_broadcaster_thread = std::thread(...)` has been executed. -/
structure TFBroadcaster (K : Type) where
  _active : Bool
  _initialized : Bool
  _running : Bool
  _target : Option (QQuickItem K)
  _origin : Option (QQuickItem K)
  _frame : String
  _parentframe : String
  _pixel2meter : K
  _zoffset : K
  threadsStarted : Nat

/-- The constructor `TFBroadcaster::TFBroadcaster`. -/
def TFBroadcaster.new {K : Type} [Field K] : TFBroadcaster K :=
  { _active := true
    _initialized := false
    _running := false
    _target := none
    _origin := none
    _frame := ""
    _parentframe := ""
    _pixel2meter := 1
    _zoffset := 0
    threadsStarted := 0 }

/-- Qt's `QString::isEmpty`. -/
def isEmpty (s : String) : Bool :=
  decide (s = "")

/-- The method `TFBroadcaster::setTarget(QQuickItem* target)`. -/
def TFBroadcaster.setTarget {K : Type} (s : TFBroadcaster K)
    (target : Option (QQuickItem K)) : TFBroadcaster K :=
  let s1 := { s with _target := target }
  if !s1._running then
    { s1 with _running := true, threadsStarted := s1.threadsStarted + 1 }
  else
    s1

/-- The method `TFBroadcaster::setFrame(QString frame)`. -/
def TFBroadcaster.setFrame {K : Type} (s : TFBroadcaster K) (frame : String) :
    TFBroadcaster K :=
  let s1 := { s with _frame := frame }
  if !isEmpty s1._parentframe then { s1 with _initialized := true } else s1

/-- The method `TFBroadcaster::setParentFrame(QString frame)`. -/
def TFBroadcaster.setParentFrame {K : Type} (s : TFBroadcaster K) (frame : String) :
    TFBroadcaster K :=
  let s1 := { s with _parentframe := frame }
  if !isEmpty s1._frame then { s1 with _initialized := true } else s1

/-- Modelled from the spec: `TFBroadcaster::setActive`, declared in the header
`ros.h`, which is not among the sources. Spec §4.2: "`setActive(bool)`: gates
emission without stopping the loop"; it assigns the `active` flag. -/
def TFBroadcaster.setActive {K : Type} (s : TFBroadcaster K) (active : Bool) :
    TFBroadcaster K :=
  { s with _active := active }

/-- What `sendTransform` receives: the translation `tf::Vector3(x, y, _zoffset)`,
the yaw given to `setRPY(0, 0, theta)`, and the parent and child frame names. -/
structure StampedTransform (K : Type) where
  x : K
  y : K
  z : K
  theta : K
  frame_id : String
  child_frame_id : String

/-- One pass of the body of `while(_running)` in `TFBroadcaster::tfPublisher`,
without the sleep: the state after the pass and the transforms sent during it.
`M_PI` is the constant of `<cmath>`. -/
def TFBroadcaster.tfPublisherBody {K : Type} [Field K] (M_PI : K) (s : TFBroadcaster K) :
    Except Fault (TFBroadcaster K × List (StampedTransform K)) :=
  if s._initialized && s._active then
    match s._target with
    | none => .error .nullDeref
    | some target =>
      let xyt : K × K × K :=
        match s._origin with
        | some origin =>
          ( (target.mapToSceneOrigin.x - origin.mapToSceneOrigin.x) * s._pixel2meter
          , -(target.mapToSceneOrigin.y - origin.mapToSceneOrigin.y) * s._pixel2meter
          , -(target.rotation - origin.rotation) * M_PI / 180 )
        | none =>
          ( target.mapToSceneOrigin.x * s._pixel2meter
          , -target.mapToSceneOrigin.y * s._pixel2meter
          , -target.rotation * M_PI / 180 )
      .ok (s, [{ x := xyt.1, y := xyt.2.1, z := s._zoffset, theta := xyt.2.2
                 frame_id := s._parentframe, child_frame_id := s._frame }])
  else
    .ok (s, [])

/-- The outcome of running the loop of `tfPublisher` for a while: the final
state, the transforms sent so far, and the number of passes executed. -/
structure LoopTrace (K : Type) where
  state : TFBroadcaster K
  sent : List (StampedTransform K)
  passes : Nat

/-- The loop `while(_running) { body; sleep }` of `TFBroadcaster::tfPublisher`,
observed for at most `fuel` passes. -/
def TFBroadcaster.tfPublisher {K : Type} [Field K] (M_PI : K) :
    Nat → TFBroadcaster K → Except Fault (LoopTrace K)
  | 0, s => .ok { state := s, sent := [], passes := 0 }
  | fuel + 1, s =>
    if s._running then
      match s.tfPublisherBody M_PI with
      | .error e => .error e
      | .ok (s1, out) =>
        match TFBroadcaster.tfPublisher M_PI fuel s1 with
        | .error e => .error e
        | .ok t => .ok { state := t.state, sent := out ++ t.sent, passes := t.passes + 1 }
    else
      .ok { state := s, sent := [], passes := 0 }

/-- A call of the public interface of `TFBroadcaster`. -/
inductive Call (K : Type) where
  | setTarget (target : Option (QQuickItem K))
  | setFrame (frame : String)
  | setParentFrame (frame : String)
  | setActive (active : Bool)

/-- Whether the call is a `setTarget`. -/
def Call.isSetTarget {K : Type} : Call K → Bool
  | .setTarget _ => true
  | _ => false

/-- The effect of one call on the broadcaster. -/
def TFBroadcaster.apply {K : Type} (s : TFBroadcaster K) : Call K → TFBroadcaster K
  | .setTarget t => s.setTarget t
  | .setFrame f => s.setFrame f
  | .setParentFrame f => s.setParentFrame f
  | .setActive a => s.setActive a

/-- A sequence of calls, applied from left to right. -/
def TFBroadcaster.run {K : Type} (s : TFBroadcaster K) (calls : List (Call K)) :
    TFBroadcaster K :=
  calls.foldl TFBroadcaster.apply s

/-- A frame-name setter: child frame (`setFrame`) or parent frame. -/
inductive FrameCall where
  | setFrame (frame : String)
  | setParentFrame (frame : String)

/-- The name a frame setter passes. -/
def FrameCall.frame : FrameCall → String
  | .setFrame f => f
  | .setParentFrame f => f

/-- A frame setter as a call of the interface. -/
def FrameCall.toCall (K : Type) : FrameCall → Call K
  | .setFrame f => .setFrame f
  | .setParentFrame f => .setParentFrame f

/-! ## FootprintsPublisher -/

/-- A ROS `geometry_msgs::Point`. -/
structure Point (K : Type) where
  x : K
  y : K
  z : K

/-- The fields of `visualization_msgs::Marker` that `setTargets` fills in
(`action` is always `ADD` and `type` always `LINE_STRIP`). -/
structure Marker (K : Type) where
  frame_id : String
  ns : String
  id : Nat
  orientation_w : K
  scale_x : K
  color_b : K
  color_a : K
  points : List (Point K)

/-- The member of `FootprintsPublisher` that `setTargets` reads. -/
structure FootprintsPublisher (K : Type) where
  _pixel2meter : K

/-- The constructor `FootprintsPublisher::FootprintsPublisher`. -/
def FootprintsPublisher.new {K : Type} [Field K] : FootprintsPublisher K :=
  { _pixel2meter := 1 }

/-- The point built from one vertex in the vertex loop of `setTargets`:
`p.x = point.x() * _pixel2meter; p.y = -point.y() * _pixel2meter; p.z = 0`. -/
def convertVertex {K : Type} [Field K] (pixel2meter : K) (point : QPointF K) : Point K :=
  { x := point.x * pixel2meter, y := -point.y * pixel2meter, z := 0 }

/-- The variables the vertex loop updates: `marker.points`, `bbx`, `bby`. -/
structure VertexAcc (K : Type) where
  points : List (Point K)
  bbx : K
  bby : K

/-- One pass of the vertex loop of `setTargets`. -/
def vertexStep {K : Type} [Field K] (pixel2meter : K) (acc : VertexAcc K)
    (point : QPointF K) : VertexAcc K :=
  let p := convertVertex pixel2meter point
  { points := acc.points ++ [p], bbx := acc.bbx + p.x, bby := acc.bby + p.y }

/-- The vertex loop of `setTargets`, from `bbx = 0, bby = 0` and no points. -/
def vertexLoop {K : Type} [Field K] (pixel2meter : K) (vertices : List (QPointF K)) :
    VertexAcc K :=
  vertices.foldl (vertexStep pixel2meter) { points := [], bbx := 0, bby := 0 }

/-- The body of the target loop of `setTargets` for a non-null item, given the
current value of `id`: the marker pushed to `markers.markers`. -/
def buildMarker {K : Type} [Field K] (pixel2meter : K) (id : Nat) (item : QQuickItem K) :
    Except Fault (Marker K) :=
  match item.boundingbox with
  | none => .error .nullDeref
  | some boundingbox =>
    let vertices := boundingbox.vertices
    let acc := vertexLoop pixel2meter vertices
    match acc.points.head? with
    | none => .error .emptyFront
    | some front =>
      let closed := acc.points ++ [front]
      let bbx := acc.bbx / (vertices.length : K)
      let bby := acc.bby / (vertices.length : K)
      .ok { frame_id := "/" ++ item.name
            ns := "qml_items_footprints"
            id := id
            orientation_w := 1
            scale_x := 5 / 1000
            color_b := 1
            color_a := 1
            points := closed.map fun p => { p with x := p.x - bbx, y := p.y - bby } }

/-- The target loop of `setTargets`: `id` is the counter, `markers` what has been
pushed so far; a null handle is skipped by `continue`, before `id++`. The counter
is a C++ `int` counted up from 0; it is a `Nat` here, which agrees with it for
every batch of fewer than `2^31` items. -/
def setTargetsLoop {K : Type} [Field K] (pixel2meter : K) :
    List (Option (QQuickItem K)) → Nat → List (Marker K) → Except Fault (List (Marker K))
  | [], _, markers => .ok markers
  | none :: rest, id, markers => setTargetsLoop pixel2meter rest id markers
  | some item :: rest, id, markers =>
    match buildMarker pixel2meter id item with
    | .error e => .error e
    | .ok marker => setTargetsLoop pixel2meter rest (id + 1) (markers ++ [marker])

/-- The method `FootprintsPublisher::setTargets(QVariantList targets)`: the marker
array handed to `_publisher.publish`. -/
def FootprintsPublisher.setTargets {K : Type} [Field K] (pub : FootprintsPublisher K)
    (targets : List (Option (QQuickItem K))) : Except Fault (List (Marker K)) :=
  setTargetsLoop pub._pixel2meter targets 0 []

/-! ## The rules of the specification, as written there -/

/-- The rule `toWorld` of spec §4.1, in the spec's words:
`x = px / scale [+ origin.x if present]`, `y = -py / scale [+ origin.y if present]`. -/
def specToWorld {K : Type} [Field K] (px py scale : K) (originOpt : Option (K × K)) : K × K :=
  match originOpt with
  | some origin => (px / scale + origin.1, -py / scale + origin.2)
  | none => (px / scale, -py / scale)

/-- The centroid of a list of points: the sum of the points divided by their
number, coordinate by coordinate (spec §4.4 step 4). -/
def centroid {K : Type} [Field K] (ps : List (Point K)) : Point K :=
  { x := (ps.map Point.x).sum / (ps.length : K)
    y := (ps.map Point.y).sum / (ps.length : K)
    z := (ps.map Point.z).sum / (ps.length : K) }

/-- The difference of two points, coordinate by coordinate. -/
def Point.sub {K : Type} [Field K] (p g : Point K) : Point K :=
  { x := p.x - g.x, y := p.y - g.y, z := p.z - g.z }

/-! ## Concrete inputs used in the examples -/

/-- An item whose origin sits at scene position `(px, py)` (its `x()`/`y()` are
the same numbers), rotated by `rot` degrees, without a polygon. -/
def itemAt {K : Type} (px py rot : K) : QQuickItem K :=
  { x := px, y := py, scenePos := { x := px, y := py }, rotation := rot
    name := "item", boundingbox := none }

/-- An item named `name` carrying the polygon `vertices`. -/
def polygonItem {K : Type} [Field K] (name : String) (vertices : List (QPointF K)) :
    QQuickItem K :=
  { x := 0, y := 0, scenePos := { x := 0, y := 0 }, rotation := 0
    name := name, boundingbox := some { vertices := vertices } }

/-- A broadcaster with both frame names set, active, its loop running, tracking
`target` relative to `origin` with scale `pixel2meter`. -/
def broadcasting {K : Type} [Field K] (target : QQuickItem K)
    (origin : Option (QQuickItem K)) (pixel2meter : K) : TFBroadcaster K :=
  { _active := true, _initialized := true, _running := true
    _target := some target, _origin := origin
    _frame := "robot", _parentframe := "map"
    _pixel2meter := pixel2meter, _zoffset := 0, threadsStarted := 1 }

/-- A rational stand-in for `M_PI` where a concrete run needs a value. -/
def piApprox : ℚ := 355 / 113

/-! ## Shared lemmas -/

/-- When the broadcaster is initialized and active and has a target, one pass
sends exactly the transform computed from the current readings. -/
lemma tfPublisherBody_eq {K : Type} [Field K] (M_PI : K) (s : TFBroadcaster K)
    (target : QQuickItem K) (hi : s._initialized = true) (ha : s._active = true)
    (ht : s._target = some target) :
    s.tfPublisherBody M_PI = .ok (s,
      [{ x := (match s._origin with
               | some origin => (target.scenePos.x - origin.scenePos.x) * s._pixel2meter
               | none => target.scenePos.x * s._pixel2meter)
         y := (match s._origin with
               | some origin => -(target.scenePos.y - origin.scenePos.y) * s._pixel2meter
               | none => -target.scenePos.y * s._pixel2meter)
         z := s._zoffset
         theta := (match s._origin with
               | some origin => -(target.rotation - origin.rotation) * M_PI / 180
               | none => -target.rotation * M_PI / 180)
         frame_id := s._parentframe
         child_frame_id := s._frame }]) := by
  unfold TFBroadcaster.tfPublisherBody
  simp only [hi, ha, ht, Bool.and_self, if_true, QQuickItem.mapToSceneOrigin]
  cases s._origin <;> rfl

/-- When the broadcaster is not both initialized and active, one pass sends
nothing and leaves the state alone. -/
lemma tfPublisherBody_idle {K : Type} [Field K] (M_PI : K) (s : TFBroadcaster K)
    (h : (s._initialized && s._active) = false) :
    s.tfPublisherBody M_PI = .ok (s, []) := by
  unfold TFBroadcaster.tfPublisherBody
  simp [h]

/-- The vertex loop from an arbitrary accumulator. -/
lemma foldl_vertexStep {K : Type} [Field K] (p2m : K) (vs : List (QPointF K))
    (acc : VertexAcc K) :
    vs.foldl (vertexStep p2m) acc =
      { points := acc.points ++ vs.map (convertVertex p2m)
        bbx := acc.bbx + ((vs.map (convertVertex p2m)).map Point.x).sum
        bby := acc.bby + ((vs.map (convertVertex p2m)).map Point.y).sum } := by
  induction vs generalizing acc with
  | nil => simp
  | cons v vs ih =>
    simp only [List.foldl_cons, ih, vertexStep, List.map_cons, List.sum_cons,
      List.append_assoc, List.singleton_append, add_assoc]

/-- The vertex loop pushes the converted vertices in order and leaves their
coordinate sums in `bbx`, `bby`. -/
lemma vertexLoop_eq {K : Type} [Field K] (p2m : K) (vs : List (QPointF K)) :
    vertexLoop p2m vs =
      { points := vs.map (convertVertex p2m)
        bbx := ((vs.map (convertVertex p2m)).map Point.x).sum
        bby := ((vs.map (convertVertex p2m)).map Point.y).sum } := by
  unfold vertexLoop
  rw [foldl_vertexStep]
  simp

/-! ## C1, C2, C10: the unit conversion of the broadcast loop -/

/-- C1 (as amended): for every target scene position, scale and optional
reference, the translation sent by one pass of `tfPublisher` (initialized,
active, target set) is `x = (px - ox) * scale`, `y = -(py - oy) * scale` when a
reference is present and `x = px * scale`, `y = -py * scale` when none is: the
scale multiplies, and the reference position is subtracted before scaling. -/
theorem tfPublisherBody_translation {K : Type} [Field K] (M_PI : K)
    (s : TFBroadcaster K) (target : QQuickItem K)
    (hi : s._initialized = true) (ha : s._active = true)
    (ht : s._target = some target) :
    ∃ tr, s.tfPublisherBody M_PI = .ok (s, [tr]) ∧
      (∀ origin, s._origin = some origin →
        tr.x = (target.scenePos.x - origin.scenePos.x) * s._pixel2meter ∧
        tr.y = -((target.scenePos.y - origin.scenePos.y) * s._pixel2meter)) ∧
      (s._origin = none →
        tr.x = target.scenePos.x * s._pixel2meter ∧
        tr.y = -(target.scenePos.y * s._pixel2meter)) := by
  refine ⟨_, tfPublisherBody_eq M_PI s target hi ha ht, ?_, ?_⟩
  · intro origin ho
    simp only [ho]
    exact ⟨trivial, by ring⟩
  · intro ho
    simp only [ho]
    exact ⟨trivial, by ring⟩

/-- C1 witness: target at `(100, 50)`, scale `2`, reference at `(10, 10)`: the
translation sent is `(180, -80)`. -/
theorem tfPublisherBody_translation_witness :
    ∃ tr, (broadcasting (itemAt (100 : ℚ) 50 0) (some (itemAt 10 10 0)) 2).tfPublisherBody
        piApprox =
        .ok (broadcasting (itemAt (100 : ℚ) 50 0) (some (itemAt 10 10 0)) 2, [tr]) ∧
      tr.x = 180 ∧ tr.y = -80 := by
  obtain ⟨tr, h, ho, _⟩ := tfPublisherBody_translation piApprox
    (broadcasting (itemAt (100 : ℚ) 50 0) (some (itemAt 10 10 0)) 2)
    (itemAt 100 50 0) rfl rfl rfl
  refine ⟨tr, h, ?_⟩
  have h2 := ho (itemAt 10 10 0) rfl
  simp only [itemAt, broadcasting] at h2
  constructor
  · rw [h2.1]; norm_num
  · rw [h2.2]; norm_num

/-- C1 counterexample: for `px = 100`, `py = 50`, `scale = 2`, reference
`(10, 10)` the rule of spec §4.1 gives `(60, -15)`, but the pass sends
`(180, -80)`. -/
theorem tfPublisherBody_translation_counterexample :
    ∃ tr, (broadcasting (itemAt (100 : ℚ) 50 0) (some (itemAt 10 10 0)) 2).tfPublisherBody
        piApprox =
        .ok (broadcasting (itemAt (100 : ℚ) 50 0) (some (itemAt 10 10 0)) 2, [tr]) ∧
      (tr.x, tr.y) = (180, -80) ∧
      specToWorld (100 : ℚ) 50 2 (some (10, 10)) = (60, -15) ∧
      (tr.x, tr.y) ≠ specToWorld (100 : ℚ) 50 2 (some (10, 10)) := by
  refine ⟨_, tfPublisherBody_eq _ _ (itemAt 100 50 0) rfl rfl rfl, ?_, ?_, ?_⟩
  · simp only [itemAt, broadcasting, Prod.mk.injEq]
    constructor <;> norm_num
  · simp only [specToWorld, Prod.mk.injEq]
    constructor <;> norm_num
  · simp only [itemAt, broadcasting, specToWorld, ne_eq, Prod.mk.injEq, not_and]
    norm_num

/-- C2: with `M_PI = π` and exact real arithmetic, the yaw sent by one pass of
`tfPublisher` (initialized, active, target set) is `-t * π / 180` without a
reference and `-(t - r) * π / 180` with one; so `t = 90` without a reference
gives `-π / 2`, and `t = 90`, `r = 30` gives `-(60) * π / 180`. -/
theorem tfPublisherBody_yaw (s : TFBroadcaster ℝ) (target : QQuickItem ℝ)
    (hi : s._initialized = true) (ha : s._active = true)
    (ht : s._target = some target) :
    ∃ tr, s.tfPublisherBody Real.pi = .ok (s, [tr]) ∧
      (s._origin = none → tr.theta = -target.rotation * Real.pi / 180) ∧
      (∀ origin, s._origin = some origin →
        tr.theta = -(target.rotation - origin.rotation) * Real.pi / 180) ∧
      (s._origin = none → target.rotation = 90 → tr.theta = -Real.pi / 2) ∧
      (∀ origin, s._origin = some origin → target.rotation = 90 →
        origin.rotation = 30 → tr.theta = -(60) * Real.pi / 180) := by
  refine ⟨_, tfPublisherBody_eq Real.pi s target hi ha ht, ?_, ?_, ?_, ?_⟩
  · intro ho
    simp [ho]
  · intro origin ho
    simp [ho]
  · intro ho h90
    simp only [ho, h90]
    ring
  · intro origin ho h90 h30
    simp only [ho, h90, h30]
    ring

/-- C2 witness: target rotated by 90 degrees, reference rotated by 30 degrees:
the yaw sent is `-(60) * π / 180`. -/
theorem tfPublisherBody_yaw_witness :
    ∃ tr, (broadcasting (itemAt (0 : ℝ) 0 90) (some (itemAt 0 0 30)) 1).tfPublisherBody
        Real.pi =
        .ok (broadcasting (itemAt (0 : ℝ) 0 90) (some (itemAt 0 0 30)) 1, [tr]) ∧
      tr.theta = -(60) * Real.pi / 180 := by
  obtain ⟨tr, h, _, _, _, h60⟩ := tfPublisherBody_yaw
    (broadcasting (itemAt (0 : ℝ) 0 90) (some (itemAt 0 0 30)) 1)
    (itemAt 0 0 90) rfl rfl rfl
  exact ⟨tr, h, h60 (itemAt 0 0 30) rfl rfl rfl⟩

/-- C10: for a non-zero `pixel2meter`, the translation `(x, y)` that one pass of
`tfPublisher` sends for a target at scene position `(px, py)`, fed to
`updatePos` of a controller with the same `pixel2meter` and the same origin
(whose `x()`/`y()` equal its scene position), sets the controller's position
back to `(px, py)`. -/
theorem updatePos_tfPublisherBody_roundtrip {K : Type} [Field K] (M_PI : K)
    (s : TFBroadcaster K) (c : RosPositionController K) (target : QQuickItem K)
    (hi : s._initialized = true) (ha : s._active = true)
    (ht : s._target = some target) (hp : s._pixel2meter ≠ 0)
    (hc : c._pixel2meter = s._pixel2meter) (ho : c._origin = s._origin)
    (hscene : ∀ origin, s._origin = some origin →
      origin.x = origin.scenePos.x ∧ origin.y = origin.scenePos.y) :
    ∃ tr, s.tfPublisherBody M_PI = .ok (s, [tr]) ∧
      (c.updatePos tr.x tr.y).x = target.scenePos.x ∧
      (c.updatePos tr.x tr.y).y = target.scenePos.y := by
  refine ⟨_, tfPublisherBody_eq M_PI s target hi ha ht, ?_, ?_⟩
  · cases hso : s._origin with
    | none =>
      simp only [RosPositionController.updatePos, ho, hso, hc]
      field_simp
    | some origin =>
      obtain ⟨hx, _⟩ := hscene origin hso
      simp only [RosPositionController.updatePos, ho, hso, hc, hx]
      field_simp
  · cases hso : s._origin with
    | none =>
      simp only [RosPositionController.updatePos, ho, hso, hc]
      field_simp
    | some origin =>
      obtain ⟨_, hy⟩ := hscene origin hso
      simp only [RosPositionController.updatePos, ho, hso, hc, hy]
      field_simp
      ring

/-- C10 witness: scale `2`, origin at `(10, 10)`, target at `(100, 50)`: the
translation sent, fed to `updatePos`, puts the controller at `(100, 50)`. -/
theorem updatePos_tfPublisherBody_roundtrip_witness :
    ∃ tr, (broadcasting (itemAt (100 : ℚ) 50 0) (some (itemAt 10 10 0)) 2).tfPublisherBody
        piApprox =
        .ok (broadcasting (itemAt (100 : ℚ) 50 0) (some (itemAt 10 10 0)) 2, [tr]) ∧
      (({ _origin := some (itemAt 10 10 0), _pixel2meter := 2, x := 0, y := 0
          positionChangedCount := 0 } : RosPositionController ℚ).updatePos tr.x tr.y).x = 100 ∧
      (({ _origin := some (itemAt 10 10 0), _pixel2meter := 2, x := 0, y := 0
          positionChangedCount := 0 } : RosPositionController ℚ).updatePos tr.x tr.y).y = 50 :=
  updatePos_tfPublisherBody_roundtrip piApprox
    (broadcasting (itemAt (100 : ℚ) 50 0) (some (itemAt 10 10 0)) 2)
    { _origin := some (itemAt 10 10 0), _pixel2meter := 2, x := 0, y := 0
      positionChangedCount := 0 }
    (itemAt 100 50 0) rfl rfl rfl (by simp [broadcasting]) rfl rfl
    (by intro origin h; simp only [broadcasting, Option.some.injEq] at h; subst h; exact ⟨rfl, rfl⟩)

/-! ## C3, C4, C5, C6: the marker batch of `setTargets` -/

/-- The `z` coordinates of converted vertices sum to zero. -/
lemma sum_z_convertVertex {K : Type} [Field K] (p2m : K) (vs : List (QPointF K)) :
    ((vs.map (convertVertex p2m)).map Point.z).sum = 0 := by
  induction vs with
  | nil => simp
  | cons v vs ih =>
    simp only [List.map_cons, List.sum_cons, ih, add_zero]
    rfl

/-- The marker built for an item whose polygon is `v :: vs`. -/
lemma buildMarker_cons {K : Type} [Field K] (p2m : K) (id : Nat) (item : QQuickItem K)
    (bb : BoundingBox K) (v : QPointF K) (vs : List (QPointF K))
    (hb : item.boundingbox = some bb) (hv : bb.vertices = v :: vs) :
    buildMarker p2m id item = .ok
      { frame_id := "/" ++ item.name
        ns := "qml_items_footprints"
        id := id
        orientation_w := 1
        scale_x := 5 / 1000
        color_b := 1
        color_a := 1
        points := (((v :: vs).map (convertVertex p2m)) ++ [convertVertex p2m v]).map fun p =>
          { p with
            x := p.x - (((v :: vs).map (convertVertex p2m)).map Point.x).sum
                  / (((v :: vs).length : ℕ) : K)
            y := p.y - (((v :: vs).map (convertVertex p2m)).map Point.y).sum
                  / (((v :: vs).length : ℕ) : K) } } := by
  unfold buildMarker
  simp only [hb, hv, vertexLoop_eq, List.map_cons, List.head?_cons]

/-- An item with a non-empty polygon always yields a marker. -/
lemma buildMarker_ok {K : Type} [Field K] (p2m : K) (id : Nat) (item : QQuickItem K)
    (h : ∃ bb, item.boundingbox = some bb ∧ bb.vertices ≠ []) :
    ∃ m, buildMarker p2m id item = .ok m := by
  obtain ⟨bb, hb, hne⟩ := h
  obtain ⟨v, vs, hv⟩ := List.exists_cons_of_ne_nil hne
  exact ⟨_, buildMarker_cons p2m id item bb v vs hb hv⟩

/-- A marker carries the value `id` had when it was built. -/
lemma buildMarker_id {K : Type} [Field K] (p2m : K) (id : Nat) (item : QQuickItem K)
    (m : Marker K) (h : buildMarker p2m id item = .ok m) : m.id = id := by
  unfold buildMarker at h
  split at h
  · cases h
  · dsimp only at h
    split at h
    · cases h
    · cases h
      rfl

/-- A marker's frame is the item's name behind a slash. -/
lemma buildMarker_frame_id {K : Type} [Field K] (p2m : K) (id : Nat) (item : QQuickItem K)
    (m : Marker K) (h : buildMarker p2m id item = .ok m) : m.frame_id = "/" ++ item.name := by
  unfold buildMarker at h
  split at h
  · cases h
  · dsimp only at h
    split at h
    · cases h
    · cases h
      rfl

/-- An item whose polygon has no vertex makes `front()` undefined. -/
lemma buildMarker_empty {K : Type} [Field K] (p2m : K) (id : Nat) (item : QQuickItem K)
    (bb : BoundingBox K) (hb : item.boundingbox = some bb) (hv : bb.vertices = []) :
    buildMarker p2m id item = .error .emptyFront := by
  unfold buildMarker
  simp [hb, hv, vertexLoop]

/-- The target loop from an arbitrary counter and marker list, when every
non-null item has a non-empty polygon: it appends one marker per non-null
handle, in order, the `i`-th built with counter value `id + i`. -/
lemma setTargetsLoop_ok {K : Type} [Field K] (p2m : K)
    (targets : List (Option (QQuickItem K)))
    (h : ∀ item, some item ∈ targets → ∃ bb, item.boundingbox = some bb ∧ bb.vertices ≠ [])
    (id : Nat) (acc : List (Marker K)) :
    ∃ ms, setTargetsLoop p2m targets id acc = .ok (acc ++ ms) ∧
      ms.length = targets.reduceOption.length ∧
      ∀ i item, targets.reduceOption[i]? = some item →
        ∃ m, ms[i]? = some m ∧ buildMarker p2m (id + i) item = .ok m := by
  induction targets generalizing id acc with
  | nil => exact ⟨[], by simp [setTargetsLoop], by simp, by simp⟩
  | cons t rest ih =>
    have hrest : ∀ item, some item ∈ rest →
        ∃ bb, item.boundingbox = some bb ∧ bb.vertices ≠ [] :=
      fun item hm => h item (List.mem_cons_of_mem _ hm)
    cases t with
    | none =>
      obtain ⟨ms, hms, hlen, hget⟩ := ih hrest id acc
      refine ⟨ms, ?_, ?_, ?_⟩
      · simpa [setTargetsLoop] using hms
      · simpa [List.reduceOption_cons_of_none] using hlen
      · intro i item hi
        rw [List.reduceOption_cons_of_none] at hi
        exact hget i item hi
    | some item0 =>
      obtain ⟨m0, hm0⟩ := buildMarker_ok p2m id item0 (h item0 (List.mem_cons_self _ _))
      obtain ⟨ms, hms, hlen, hget⟩ := ih hrest (id + 1) (acc ++ [m0])
      refine ⟨m0 :: ms, ?_, ?_, ?_⟩
      · simp only [setTargetsLoop, hm0, hms, List.append_assoc, List.singleton_append]
      · simp [List.reduceOption_cons_of_some, hlen]
      · intro i item hi
        rw [List.reduceOption_cons_of_some] at hi
        cases i with
        | zero =>
          simp only [List.getElem?_cons_zero, Option.some.injEq] at hi
          subst hi
          exact ⟨m0, by simp, by simpa using hm0⟩
        | succ j =>
          simp only [List.getElem?_cons_succ] at hi
          obtain ⟨m, hm, hb⟩ := hget j item hi
          refine ⟨m, by simpa using hm, ?_⟩
          have : id + 1 + j = id + (j + 1) := by omega
          rw [← this]
          exact hb

/-- C3: for an item whose polygon is the non-empty list `v :: vs`, with `c_i` the
point the vertex loop makes of the `i`-th vertex and `g` the centroid of the `n`
converted vertices, the marker's points are `c_1 - g, ..., c_n - g, c_1 - g`:
there are `n + 1` of them and the closing point equals the first one. -/
theorem buildMarker_points {K : Type} [Field K] (p2m : K) (id : Nat)
    (item : QQuickItem K) (bb : BoundingBox K) (v : QPointF K) (vs : List (QPointF K))
    (hb : item.boundingbox = some bb) (hv : bb.vertices = v :: vs) :
    ∃ m, buildMarker p2m id item = .ok m ∧
      m.points =
        (((v :: vs).map (convertVertex p2m)) ++ [convertVertex p2m v]).map
          (fun c => c.sub (centroid ((v :: vs).map (convertVertex p2m)))) ∧
      m.points.length = (v :: vs).length + 1 ∧
      m.points.getLast? = m.points.head? := by
  have hsub : ∀ c ∈ ((v :: vs).map (convertVertex p2m)) ++ [convertVertex p2m v],
      ({ c with
          x := c.x - (((v :: vs).map (convertVertex p2m)).map Point.x).sum
                / (((v :: vs).length : ℕ) : K)
          y := c.y - (((v :: vs).map (convertVertex p2m)).map Point.y).sum
                / (((v :: vs).length : ℕ) : K) } : Point K) =
        c.sub (centroid ((v :: vs).map (convertVertex p2m))) := by
    intro c hc
    have hz : c.z = 0 := by
      simp only [List.mem_append, List.mem_map, List.mem_singleton] at hc
      rcases hc with ⟨w, _, rfl⟩ | rfl <;> rfl
    simp only [Point.sub, centroid, sum_z_convertVertex, List.length_map, zero_div, sub_zero]
  refine ⟨_, buildMarker_cons p2m id item bb v vs hb hv, ?_, ?_, ?_⟩
  · exact List.map_congr_left hsub
  · simp
  · simp [List.getLast?_eq_getLast]

/-- C3 witness: the square `(0,0), (2,0), (2,2), (0,2)` at scale 1 has centroid
`(1, -1)` and its marker has the points `(-1,1), (1,1), (1,-1), (-1,-1), (-1,1)`. -/
theorem buildMarker_points_witness :
    centroid ([⟨0, 0⟩, ⟨2, 0⟩, ⟨2, 2⟩, ⟨0, 2⟩].map (convertVertex (1 : ℚ))) = ⟨1, -1, 0⟩ ∧
    ∃ m, buildMarker (1 : ℚ) 0
        (polygonItem "square" [⟨0, 0⟩, ⟨2, 0⟩, ⟨2, 2⟩, ⟨0, 2⟩]) = .ok m ∧
      m.points = [⟨-1, 1, 0⟩, ⟨1, 1, 0⟩, ⟨1, -1, 0⟩, ⟨-1, -1, 0⟩, ⟨-1, 1, 0⟩] := by
  have hc : centroid ([⟨0, 0⟩, ⟨2, 0⟩, ⟨2, 2⟩, ⟨0, 2⟩].map (convertVertex (1 : ℚ)))
      = ⟨1, -1, 0⟩ := by
    simp only [centroid, convertVertex, List.map_cons, List.map_nil, List.sum_cons,
      List.sum_nil, List.length_cons, List.length_nil, Point.mk.injEq]
    norm_num
  refine ⟨hc, ?_⟩
  obtain ⟨m, hm, hp, _, _⟩ := buildMarker_points (1 : ℚ) 0
    (polygonItem "square" [⟨0, 0⟩, ⟨2, 0⟩, ⟨2, 2⟩, ⟨0, 2⟩])
    { vertices := [⟨0, 0⟩, ⟨2, 0⟩, ⟨2, 2⟩, ⟨0, 2⟩] } ⟨0, 0⟩ [⟨2, 0⟩, ⟨2, 2⟩, ⟨0, 2⟩] rfl rfl
  refine ⟨m, hm, ?_⟩
  rw [hp, hc]
  simp only [convertVertex, Point.sub, List.map_cons, List.map_nil, List.cons_append,
    List.nil_append, List.cons.injEq, Point.mk.injEq, and_true]
  norm_num

/-- C4 (failing input): a batch of three items whose second polygon is empty.
The loop has no guard for it: with `id` already taken for the item it calls
`front()` on the empty point vector, which is undefined, so no batch of two
markers with ids 0 and 1 comes out. -/
theorem setTargets_empty_polygon :
    (FootprintsPublisher.new : FootprintsPublisher ℚ).setTargets
        [ some (polygonItem "a" [⟨0, 0⟩, ⟨2, 0⟩, ⟨2, 2⟩, ⟨0, 2⟩])
        , some (polygonItem "b" [])
        , some (polygonItem "c" [⟨0, 0⟩, ⟨2, 0⟩, ⟨2, 2⟩, ⟨0, 2⟩]) ]
      = .error .emptyFront := by
  have h1 := buildMarker_cons (1 : ℚ) 0
    (polygonItem "a" [⟨0, 0⟩, ⟨2, 0⟩, ⟨2, 2⟩, ⟨0, 2⟩])
    { vertices := [⟨0, 0⟩, ⟨2, 0⟩, ⟨2, 2⟩, ⟨0, 2⟩] } ⟨0, 0⟩ [⟨2, 0⟩, ⟨2, 2⟩, ⟨0, 2⟩] rfl rfl
  have h2 := buildMarker_empty (1 : ℚ) 1 (polygonItem "b" []) { vertices := [] } rfl rfl
  simp only [FootprintsPublisher.setTargets, FootprintsPublisher.new, setTargetsLoop, h1, h2]

/-- C5: when every non-null item of the input has a non-empty polygon,
`setTargets` returns one marker per non-null handle, in input order: the `i`-th
marker (from 0) is the one built from the `i`-th non-null item and has id `i`,
so the ids of a batch of `k` markers are `0, ..., k-1` on every call. -/
theorem setTargets_ids {K : Type} [Field K] (pub : FootprintsPublisher K)
    (targets : List (Option (QQuickItem K)))
    (h : ∀ item, some item ∈ targets →
      ∃ bb, item.boundingbox = some bb ∧ bb.vertices ≠ []) :
    ∃ markers, pub.setTargets targets = .ok markers ∧
      markers.length = targets.reduceOption.length ∧
      (∀ i item, targets.reduceOption[i]? = some item →
        ∃ m, markers[i]? = some m ∧ buildMarker pub._pixel2meter i item = .ok m ∧
          m.id = i ∧ m.frame_id = "/" ++ item.name) ∧
      markers.map Marker.id = List.range markers.length := by
  obtain ⟨ms, hms, hlen, hget⟩ := setTargetsLoop_ok pub._pixel2meter targets h 0 []
  simp only [List.nil_append, zero_add] at hms hget
  have hall : ∀ i item, targets.reduceOption[i]? = some item →
      ∃ m, ms[i]? = some m ∧ buildMarker pub._pixel2meter i item = .ok m ∧
        m.id = i ∧ m.frame_id = "/" ++ item.name := by
    intro i item hi
    obtain ⟨m, hm, hb⟩ := hget i item hi
    exact ⟨m, hm, hb, buildMarker_id _ _ _ _ hb, buildMarker_frame_id _ _ _ _ hb⟩
  refine ⟨ms, hms, hlen, hall, ?_⟩
  apply List.ext_getElem
  · simp
  · intro i h1 h2
    simp only [List.getElem_map, List.getElem_range]
    have hi : i < targets.reduceOption.length := by
      rw [← hlen]; simpa using h1
    obtain ⟨m, hm, _, hid, _⟩ := hall i _ (List.getElem?_eq_getElem hi)
    have hlt : i < ms.length := by simpa using h1
    rw [List.getElem?_eq_getElem hlt, Option.some.injEq] at hm
    rw [hm, hid]

/-- C5 witness: a null handle between two squares: two markers, ids 0 and 1,
framed `/a` and `/c`. -/
theorem setTargets_ids_witness :
    ∃ markers, (FootprintsPublisher.new : FootprintsPublisher ℚ).setTargets
        [ some (polygonItem "a" [⟨0, 0⟩, ⟨2, 0⟩, ⟨2, 2⟩, ⟨0, 2⟩])
        , none
        , some (polygonItem "c" [⟨0, 0⟩, ⟨2, 0⟩, ⟨2, 2⟩, ⟨0, 2⟩]) ] = .ok markers ∧
      markers.length = 2 ∧ markers.map Marker.id = [0, 1] := by
  obtain ⟨markers, hm, hlen, _, hids⟩ := setTargets_ids
    (FootprintsPublisher.new : FootprintsPublisher ℚ)
    [ some (polygonItem "a" [⟨0, 0⟩, ⟨2, 0⟩, ⟨2, 2⟩, ⟨0, 2⟩])
    , none
    , some (polygonItem "c" [⟨0, 0⟩, ⟨2, 0⟩, ⟨2, 2⟩, ⟨0, 2⟩]) ]
    (by
      intro item hmem
      simp only [List.mem_cons, Option.some.injEq, List.mem_singleton, List.mem_nil_iff,
        or_false, false_or, reduceCtorEq] at hmem
      rcases hmem with rfl | rfl <;> exact ⟨_, rfl, by simp⟩)
  have h2 : markers.length = 2 := by
    rw [hlen]; rfl
  refine ⟨markers, hm, h2, ?_⟩
  rw [hids, h2]
  rfl

/-- C6 (as amended): every point the vertex loop of `setTargets` makes from a
vertex `(vx, vy)` is `x = vx * scale`, `y = -vy * scale`, `z = 0` (no origin
offset; the scale multiplies), and the loop pushes these points in vertex
order. -/
theorem vertexLoop_points {K : Type} [Field K] (p2m : K) (vs : List (QPointF K)) :
    (vertexLoop p2m vs).points =
        vs.map (fun v => ({ x := v.x * p2m, y := -(v.y * p2m), z := 0 } : Point K)) ∧
      ∀ (acc : VertexAcc K) (v : QPointF K),
        (vertexStep p2m acc v).points =
          acc.points ++ [({ x := v.x * p2m, y := -(v.y * p2m), z := 0 } : Point K)] := by
  have hconv : ∀ v : QPointF K,
      convertVertex p2m v = ({ x := v.x * p2m, y := -(v.y * p2m), z := 0 } : Point K) := by
    intro v
    simp [convertVertex]
  refine ⟨?_, ?_⟩
  · rw [vertexLoop_eq]
    exact List.map_congr_left fun v _ => hconv v
  · intro acc v
    simp [vertexStep, hconv]

/-- C6 counterexample: for the vertex `(2, 4)` at scale `2` the rule of spec
§4.1 gives `(1, -2)`, but the vertex loop makes the point `(4, -8, 0)`. -/
theorem vertexLoop_points_counterexample :
    ∃ p, (vertexLoop (2 : ℚ) [⟨2, 4⟩]).points = [p] ∧
      (p.x, p.y, p.z) = (4, -8, 0) ∧
      specToWorld (2 : ℚ) 4 2 none = (1, -2) ∧
      (p.x, p.y) ≠ specToWorld (2 : ℚ) 4 2 none := by
  refine ⟨convertVertex 2 ⟨2, 4⟩, ?_, ?_, ?_, ?_⟩
  · rw [vertexLoop_eq]
    rfl
  · simp only [convertVertex, Prod.mk.injEq]
    norm_num
  · simp only [specToWorld, Prod.mk.injEq]
    norm_num
  · simp only [convertVertex, specToWorld, ne_eq, Prod.mk.injEq, not_and]
    norm_num

/-! ## C7, C8, C9: the life cycle of the broadcaster -/

/-- Running a sequence that starts with `c`. -/
lemma run_cons {K : Type} (s : TFBroadcaster K) (c : Call K) (calls : List (Call K)) :
    s.run (c :: calls) = (s.apply c).run calls := rfl

/-- After a frame setter, two non-empty names imply `_initialized`. -/
lemma apply_frameCall_both {K : Type} (s : TFBroadcaster K) (c : FrameCall) :
    (s.apply (c.toCall K))._frame ≠ "" ∧ (s.apply (c.toCall K))._parentframe ≠ "" →
      (s.apply (c.toCall K))._initialized = true := by
  cases c with
  | setFrame f =>
    simp only [FrameCall.toCall, TFBroadcaster.apply, TFBroadcaster.setFrame, isEmpty]
    by_cases hp : s._parentframe = "" <;> simp [hp]
  | setParentFrame f =>
    simp only [FrameCall.toCall, TFBroadcaster.apply, TFBroadcaster.setParentFrame, isEmpty]
    by_cases hf : s._frame = "" <;> simp [hf]

/-- From any state in which two non-empty names imply `_initialized`, the same
holds after any sequence of frame setters. -/
lemma run_frameCalls_both {K : Type} (calls : List FrameCall) (s : TFBroadcaster K)
    (hs : s._frame ≠ "" ∧ s._parentframe ≠ "" → s._initialized = true) :
    (s.run (calls.map (FrameCall.toCall K)))._frame ≠ "" ∧
      (s.run (calls.map (FrameCall.toCall K)))._parentframe ≠ "" →
      (s.run (calls.map (FrameCall.toCall K)))._initialized = true := by
  induction calls generalizing s with
  | nil => exact hs
  | cons c calls ih =>
    rw [List.map_cons, run_cons]
    exact ih _ (apply_frameCall_both s c)

/-- C7 (failing input): `setParentFrame "map"` then `setFrame ""` on a fresh
broadcaster. `setFrame` tests only the parent name, so `_initialized` becomes
true although the child-frame name is empty: the flag is not "both names
non-empty". Once a target is set, a pass of the loop then sends a transform
whose child frame is the empty name. -/
theorem initialized_empty_child_frame :
    ((TFBroadcaster.new : TFBroadcaster ℚ).run
        [Call.setParentFrame "map", Call.setFrame ""])._initialized = true ∧
      ((TFBroadcaster.new : TFBroadcaster ℚ).run
        [Call.setParentFrame "map", Call.setFrame ""])._frame = "" ∧
      ¬ (((TFBroadcaster.new : TFBroadcaster ℚ).run
          [Call.setParentFrame "map", Call.setFrame ""])._initialized = true ↔
        ((TFBroadcaster.new : TFBroadcaster ℚ).run
            [Call.setParentFrame "map", Call.setFrame ""])._frame ≠ "" ∧
          ((TFBroadcaster.new : TFBroadcaster ℚ).run
            [Call.setParentFrame "map", Call.setFrame ""])._parentframe ≠ "") ∧
      ∃ tr, ((TFBroadcaster.new : TFBroadcaster ℚ).run
          [Call.setParentFrame "map", Call.setFrame "",
            Call.setTarget (some (itemAt 100 50 0))]).tfPublisherBody piApprox =
          .ok ((TFBroadcaster.new : TFBroadcaster ℚ).run
            [Call.setParentFrame "map", Call.setFrame "",
              Call.setTarget (some (itemAt 100 50 0))], [tr]) ∧
        tr.child_frame_id = "" ∧ tr.frame_id = "map" := by
  refine ⟨?_, ?_, ?_, ?_⟩
  · simp [TFBroadcaster.run, TFBroadcaster.apply, TFBroadcaster.new,
      TFBroadcaster.setFrame, TFBroadcaster.setParentFrame, isEmpty]
  · simp [TFBroadcaster.run, TFBroadcaster.apply, TFBroadcaster.new,
      TFBroadcaster.setFrame, TFBroadcaster.setParentFrame, isEmpty]
  · simp [TFBroadcaster.run, TFBroadcaster.apply, TFBroadcaster.new,
      TFBroadcaster.setFrame, TFBroadcaster.setParentFrame, isEmpty]
  · refine ⟨_, tfPublisherBody_eq piApprox _ (itemAt 100 50 0) ?_ ?_ ?_, ?_, ?_⟩ <;>
      simp [TFBroadcaster.run, TFBroadcaster.apply, TFBroadcaster.new,
        TFBroadcaster.setFrame, TFBroadcaster.setParentFrame, TFBroadcaster.setTarget,
        isEmpty]

/-- The running flag and the thread count after a sequence of calls from any
state. -/
lemma run_running {K : Type} (calls : List (Call K)) (s : TFBroadcaster K) :
    (s.run calls)._running = (s._running || calls.any Call.isSetTarget) ∧
      (s.run calls).threadsStarted =
        s.threadsStarted + (if !s._running && calls.any Call.isSetTarget then 1 else 0) := by
  induction calls generalizing s with
  | nil => simp [TFBroadcaster.run]
  | cons c calls ih =>
    rw [run_cons]
    obtain ⟨h1, h2⟩ := ih (s.apply c)
    rw [h1, h2]
    cases c with
    | setTarget t =>
      cases hr : s._running <;>
        simp [TFBroadcaster.apply, TFBroadcaster.setTarget, Call.isSetTarget, hr]
    | setFrame f =>
      by_cases hp : s._parentframe = "" <;>
        simp [TFBroadcaster.apply, TFBroadcaster.setFrame, Call.isSetTarget, isEmpty, hp]
    | setParentFrame f =>
      by_cases hf : s._frame = "" <;>
        simp [TFBroadcaster.apply, TFBroadcaster.setParentFrame, Call.isSetTarget, isEmpty, hf]
    | setActive a =>
      simp [TFBroadcaster.apply, TFBroadcaster.setActive, Call.isSetTarget]

/-- C8: after any sequence of `setTarget`, `setFrame`, `setParentFrame` and
`setActive` calls on a fresh broadcaster the loop thread has been started once
if the sequence contains a `setTarget` and never otherwise; it is started at the
first `setTarget`; a `setTarget` while running starts no second thread; and the
frame setters and `setActive` change neither the running flag nor the count. -/
theorem setTarget_starts_loop_once {K : Type} [Field K] (calls : List (Call K)) :
    ((TFBroadcaster.new : TFBroadcaster K).run calls).threadsStarted =
        (if calls.any Call.isSetTarget then 1 else 0) ∧
      ((TFBroadcaster.new : TFBroadcaster K).run calls)._running =
        calls.any Call.isSetTarget ∧
      (∀ pre t post, calls = pre ++ Call.setTarget t :: post →
        pre.any Call.isSetTarget = false →
          ((TFBroadcaster.new : TFBroadcaster K).run pre).threadsStarted = 0 ∧
          ((TFBroadcaster.new : TFBroadcaster K).run pre)._running = false ∧
          ((TFBroadcaster.new : TFBroadcaster K).run
            (pre ++ [Call.setTarget t])).threadsStarted = 1 ∧
          ((TFBroadcaster.new : TFBroadcaster K).run
            (pre ++ [Call.setTarget t]))._running = true) ∧
      (∀ (s : TFBroadcaster K) t, s._running = true →
        (s.setTarget t)._running = true ∧
          (s.setTarget t).threadsStarted = s.threadsStarted) ∧
      (∀ (s : TFBroadcaster K) c, c.isSetTarget = false →
        (s.apply c)._running = s._running ∧
          (s.apply c).threadsStarted = s.threadsStarted) := by
  refine ⟨?_, ?_, ?_, ?_, ?_⟩
  · rw [(run_running calls _).2]
    simp [TFBroadcaster.new]
  · rw [(run_running calls _).1]
    simp [TFBroadcaster.new]
  · intro pre t post _ hpre
    refine ⟨?_, ?_, ?_, ?_⟩
    · rw [(run_running pre _).2]
      simp [TFBroadcaster.new, hpre]
    · rw [(run_running pre _).1]
      simp [TFBroadcaster.new, hpre]
    · rw [(run_running _ _).2]
      simp [TFBroadcaster.new, Call.isSetTarget]
    · rw [(run_running _ _).1]
      simp [TFBroadcaster.new, Call.isSetTarget]
  · intro s t hr
    simp [TFBroadcaster.setTarget, hr]
  · intro s c hc
    have h := run_running [c] s
    simp only [List.any_cons, hc, List.any_nil, Bool.or_false, Bool.and_false,
      Bool.false_eq_true, if_false, add_zero] at h
    exact h

/-- The loop with the emission gate closed: while running, `fuel` passes are
executed, nothing is sent and the state does not change. -/
lemma tfPublisher_idle {K : Type} [Field K] (M_PI : K) (s : TFBroadcaster K)
    (h : (s._initialized && s._active) = false) (hr : s._running = true) (fuel : Nat) :
    TFBroadcaster.tfPublisher M_PI fuel s = .ok { state := s, sent := [], passes := fuel } := by
  induction fuel with
  | zero => rfl
  | succ n ih =>
    simp only [TFBroadcaster.tfPublisher, hr, if_true, tfPublisherBody_idle M_PI s h, ih,
      List.append_nil]

/-- What holds of a pass for every state: with a non-null target it sends exactly
one transform when `_initialized` and `_active` are both true; it sends none
when they are not both true; a pass that completes leaves the running flag as
it was; and with `_active = false`, `_initialized = true` and the loop running,
`N` passes are executed, send nothing, and leave the loop running. -/
lemma tfPublisher_gating {K : Type} [Field K] (M_PI : K) (s : TFBroadcaster K) (N : Nat) :
    (∀ target, s._initialized = true → s._active = true → s._target = some target →
        ∃ tr, s.tfPublisherBody M_PI = .ok (s, [tr])) ∧
      ((s._initialized && s._active) = false → s.tfPublisherBody M_PI = .ok (s, [])) ∧
      (∀ s1 out, s.tfPublisherBody M_PI = .ok (s1, out) → s1._running = s._running) ∧
      (s._active = false → s._initialized = true → s._running = true →
        ∃ t, TFBroadcaster.tfPublisher M_PI N s = .ok t ∧
          t.sent = [] ∧ t.passes = N ∧ t.state._running = true) := by
  refine ⟨?_, ?_, ?_, ?_⟩
  · intro target hi ha ht
    exact ⟨_, tfPublisherBody_eq M_PI s target hi ha ht⟩
  · exact tfPublisherBody_idle M_PI s
  · intro s1 out h
    unfold TFBroadcaster.tfPublisherBody at h
    split at h
    · split at h
      · cases h
      · cases h
        rfl
    · cases h
      rfl
  · intro ha _ hr
    exact ⟨_, tfPublisher_idle M_PI s (by simp [ha]) hr N, rfl, rfl, hr⟩

/-- C9 (failing input): `setFrame "robot"`, `setParentFrame "map"`,
`setTarget(nullptr)` on a fresh broadcaster. The loop is started with
`_initialized` and `_active` both true and a null target; the pass has no guard
for it and calls `_target->mapToScene` through the null pointer, so it sends no
transform and does not complete. -/
theorem tfPublisherBody_null_target :
    ((TFBroadcaster.new : TFBroadcaster ℚ).run
        [Call.setFrame "robot", Call.setParentFrame "map",
          Call.setTarget none])._initialized = true ∧
      ((TFBroadcaster.new : TFBroadcaster ℚ).run
        [Call.setFrame "robot", Call.setParentFrame "map",
          Call.setTarget none])._active = true ∧
      ((TFBroadcaster.new : TFBroadcaster ℚ).run
        [Call.setFrame "robot", Call.setParentFrame "map",
          Call.setTarget none])._running = true ∧
      ((TFBroadcaster.new : TFBroadcaster ℚ).run
        [Call.setFrame "robot", Call.setParentFrame "map",
          Call.setTarget none]).tfPublisherBody piApprox = .error .nullDeref ∧
      TFBroadcaster.tfPublisher piApprox 1
        ((TFBroadcaster.new : TFBroadcaster ℚ).run
          [Call.setFrame "robot", Call.setParentFrame "map",
            Call.setTarget none]) = .error .nullDeref := by
  refine ⟨?_, ?_, ?_, ?_, ?_⟩ <;>
    simp [TFBroadcaster.run, TFBroadcaster.apply, TFBroadcaster.new,
      TFBroadcaster.setFrame, TFBroadcaster.setParentFrame, TFBroadcaster.setTarget,
      TFBroadcaster.tfPublisherBody, TFBroadcaster.tfPublisher, isEmpty]

end RosQml
